import Mathlib

/-!
Shallow embedding of the `cyberpunk-game` repository (TypeScript) and
verification of the frozen claims about it.

The embedding covers the authoritative server game state
(`src/server/src/modules/game/gameState.ts`), the socket `laser:hit`
handler (`src/server/src/modules/network/socketHandlers.ts`) and the
client collision system (`src/client/src/modules/game/collisionSystem.ts`).

Modelling conventions, stated once here:

* JavaScript numbers are modelled as exact rationals (`ℚ`); timestamps and
  scores as integers (`ℤ`).
* The mutable `players` record (string keys, insertion order) is modelled
  as a `List Player` with unique ids ordered by insertion; `Object.keys` /
  `Object.values` iteration is a fold over that list, re-reading the
  record at each step exactly as the live JS object references do.
* `Date.now()` is abstracted as an explicit `now : ℤ` argument; the clock
  is treated as constant during a single call.
* `Math.random()` choices (spawn points, the generated city layout) are
  abstracted as explicit arguments: a `Fin 5` spawn index and the
  `cityLayout` component of the state.
* The transcendental primitives `Math.sqrt`, `Math.sin`, `Math.cos` have
  no exact rational counterpart, so every function that uses them takes a
  `MathPrims` interpretation; theorems quantify over all interpretations
  and concrete runs use `ratPrims`, which is exact on every input those
  runs evaluate it at (perfect squares, angle zero).
-/

set_option maxRecDepth 4000

/-- Three JS-number components, as in `types.ts` `Vector3`. -/
structure Vec3 where
  x : ℚ
  y : ℚ
  z : ℚ
deriving DecidableEq, Repr

/-- Server `Player` record, `gameState.ts` lines 8-19. -/
structure Player where
  id : String
  position : Vec3
  rotation : Vec3
  velocity : Vec3
  health : ℚ
  score : ℤ
  lastUpdate : ℤ
  isAlive : Bool
  respawnTime : ℤ
  lastShotTime : ℤ
deriving DecidableEq, Repr

/-- Server `Laser` record, `gameState.ts` lines 21-29. -/
structure Laser where
  id : String
  playerId : String
  position : Vec3
  rotation : Vec3
  velocity : Vec3
  createdAt : ℤ
  timeToLive : ℤ
deriving DecidableEq, Repr

/-- Server `Building` record, `gameState.ts` lines 31-36. -/
structure Building where
  position : Vec3
  size : Vec3
  btype : String
  height : ℚ
deriving DecidableEq, Repr

/-- `CityBounds`, `gameState.ts` lines 38-45. -/
structure CityBounds where
  minX : ℚ
  maxX : ℚ
  minY : ℚ
  maxY : ℚ
  minZ : ℚ
  maxZ : ℚ
deriving DecidableEq, Repr

/-- The module-level mutable state of `gameState.ts` (lines 95-98). -/
structure GameState where
  players : List Player
  lasers : List Laser
  cityLayout : List Building
deriving DecidableEq, Repr

/-- `HitResult`, `gameState.ts` lines 57-62; absent JS fields are `none`. -/
structure HitResult where
  success : Bool
  killed : Option Bool
  health : Option ℚ
  sourceId : Option String
deriving DecidableEq, Repr

/-- `Partial<Player>` payloads (`initialData` / `updateData`): each field is
optional; JS truthiness of an object field is modelled by `Option.isSome`. -/
structure PlayerInit where
  position : Option Vec3 := none
  rotation : Option Vec3 := none
  velocity : Option Vec3 := none
  health : Option ℚ := none
  score : Option ℤ := none
  isAlive : Option Bool := none
deriving DecidableEq, Repr

/-- `Partial<Laser>` payload passed to `firePlayerLaser`; the function never
reads it (the laser is built from the server-side player record). -/
structure LaserInit where
  position : Option Vec3 := none
  rotation : Option Vec3 := none
deriving DecidableEq, Repr

/-- `HitData` of the `laser:hit` socket event, `socketHandlers.ts` lines 38-45. -/
structure HitData where
  targetId : String
  position : Vec3
deriving DecidableEq, Repr

/-- Interpretation of the JS float math primitives used by the game code:
`sqrt q` models `Math.sqrt(q)`, `sinDeg a` models `Math.sin(a*Math.PI/180)`
and `cosDeg a` models `Math.cos(a*Math.PI/180)`. -/
structure MathPrims where
  sqrt : ℚ → ℚ
  sinDeg : ℚ → ℚ
  cosDeg : ℚ → ℚ

/-- Newton iteration for the integer square root, with explicit fuel so the
recursion is structural (the guess strictly decreases, so `n` units of fuel
are always enough). -/
def isqrtIter (n : ℕ) : ℕ → ℕ → ℕ
  | 0, guess => guess
  | fuel + 1, guess =>
    let next := (guess + n / guess) / 2
    if next < guess then isqrtIter n fuel next else guess

/-- Integer square root (floor), Newton's method from `n / 2 + 1`. -/
def isqrt (n : ℕ) : ℕ := if n ≤ 1 then n else isqrtIter n n (n / 2 + 1)

/-- A computable square root on `ℚ`: exact (`ratSqrt (r*r) = r` for `0 ≤ r`)
whenever the argument is the square of a rational, which covers every input
the concrete runs below evaluate it at. -/
def ratSqrt (q : ℚ) : ℚ := (isqrt q.num.toNat : ℚ) / (isqrt q.den : ℚ)

/-- Concrete interpretation of the math primitives used for concrete runs:
`ratSqrt` for `Math.sqrt`, and the exact values at angle `0` (the only angle
those runs take sines or cosines of). -/
def ratPrims : MathPrims where
  sqrt := ratSqrt
  sinDeg := fun _ => 0
  cosDeg := fun _ => 1

-- Game physics constants, `gameState.ts` lines 80-93.

/-- `DRAG_COEFFICIENT`, line 82. -/
def DRAG_COEFFICIENT : ℚ := 0.1

/-- `MAX_VELOCITY`, line 83. -/
def MAX_VELOCITY : ℚ := 200

/-- `COLLISION_DAMAGE`, line 84 (declared in the source, never read). -/
def COLLISION_DAMAGE : ℚ := 20

/-- `LASER_DAMAGE`, line 85. -/
def LASER_DAMAGE : ℚ := 10

/-- `CITY_BOUNDS`, lines 86-93. -/
def CITY_BOUNDS : CityBounds :=
  { minX := -1000, maxX := 1000, minY := 0, maxY := 1000, minZ := -1000, maxZ := 1000 }

/-- The five candidate spawn points of `getRandomSpawnPoint`, lines 576-589. -/
def spawnPoints : List Vec3 :=
  [⟨0, 100, 0⟩, ⟨200, 120, 200⟩, ⟨-200, 150, -200⟩, ⟨300, 180, -100⟩, ⟨-150, 200, 250⟩]

/-- `getRandomSpawnPoint`: the `Math.random()` index choice is abstracted as
the `Fin 5` argument. -/
def getRandomSpawnPoint (i : Fin 5) : Vec3 :=
  spawnPoints.get (Fin.cast (by decide) i)

/-- `players[playerId]` lookup (returns the record if the key is present). -/
def lookupPlayer (s : GameState) (pid : String) : Option Player :=
  s.players.find? (fun p => p.id = pid)

/-- In-place mutation of the record stored under key `pid`. -/
def modifyPlayer (s : GameState) (pid : String) (f : Player → Player) : GameState :=
  { s with players := s.players.map (fun p => if p.id = pid then f p else p) }

/-- `addPlayer`, `gameState.ts` lines 128-145.  `players[playerId] = {...}`
replaces an existing record in place or appends a new key. -/
def addPlayer (i : Fin 5) (now : ℤ) (playerId : String) (initialData : PlayerInit)
    (s : GameState) : Player × GameState :=
  let spawnPoint := getRandomSpawnPoint i
  let p : Player :=
    { id := playerId
      position := initialData.position.getD spawnPoint
      rotation := initialData.rotation.getD ⟨0, 0, 0⟩
      velocity := initialData.velocity.getD ⟨0, 0, 0⟩
      health := 100
      score := 0
      lastUpdate := now
      isAlive := true
      respawnTime := 0
      lastShotTime := 0 }
  (p, { s with players :=
    if (lookupPlayer s playerId).isSome then
      s.players.map (fun q => if q.id = playerId then p else q)
    else
      s.players ++ [p] })

/-- `removePlayer`, lines 151-153. -/
def removePlayer (playerId : String) (s : GameState) : GameState :=
  { s with players := s.players.filter (fun p => ¬ p.id = playerId) }

/-- `updatePlayer`, lines 161-173: writes only position, rotation, velocity
(each only when the payload field is present/truthy) and `lastUpdate`. -/
def updatePlayer (now : ℤ) (playerId : String) (updateData : PlayerInit)
    (s : GameState) : Option Player × GameState :=
  match lookupPlayer s playerId with
  | none => (none, s)
  | some _ =>
    let s' := modifyPlayer s playerId (fun p =>
      { p with
        position := updateData.position.getD p.position
        rotation := updateData.rotation.getD p.rotation
        velocity := updateData.velocity.getD p.velocity
        lastUpdate := now })
    (lookupPlayer s' playerId, s')

/-- `firePlayerLaser`, lines 181-208. -/
def firePlayerLaser (pr : MathPrims) (now : ℤ) (playerId : String)
    (laserData : LaserInit) (s : GameState) : Option Laser × GameState :=
  match lookupPlayer s playerId with
  | none => (none, s)
  | some player =>
    if ¬ player.isAlive then (none, s)
    else if now - player.lastShotTime < 1000 then (none, s)
    else
      let _ := laserData
      let s1 := modifyPlayer s playerId (fun p => { p with lastShotTime := now })
      let laser : Laser :=
        { id := "laser_" ++ playerId ++ "_" ++ toString now
          playerId := playerId
          position := player.position
          rotation := player.rotation
          velocity :=
            ⟨-(pr.sinDeg player.rotation.y) * 500,
             (pr.sinDeg player.rotation.x) * 500,
             -(pr.cosDeg player.rotation.y) * 500⟩
          createdAt := now
          timeToLive := 2000 }
      (some laser, { s1 with lasers := s1.lasers ++ [laser] })

/-- The `{ success: false }` result of `playerHit`. -/
def hitFail : HitResult := { success := false, killed := none, health := none, sourceId := none }

/-- `playerHit`, lines 217-249. -/
def playerHit (now : ℤ) (playerId : String) (damage : ℚ) (sourceId : String)
    (s : GameState) : HitResult × GameState :=
  match lookupPlayer s playerId with
  | none => (hitFail, s)
  | some player =>
    if ¬ player.isAlive then (hitFail, s)
    else
      let h := player.health - damage
      if h ≤ 0 then
        let s1 := modifyPlayer s playerId (fun p =>
          { p with health := 0, isAlive := false, respawnTime := now + 3000 })
        let s2 :=
          if sourceId ≠ "collision" ∧ (lookupPlayer s1 sourceId).isSome then
            modifyPlayer s1 sourceId (fun p => { p with score := p.score + 1 })
          else s1
        ({ success := true, killed := some true, health := some 0, sourceId := some sourceId }, s2)
      else
        let s1 := modifyPlayer s playerId (fun p => { p with health := h })
        ({ success := true, killed := some false, health := some h, sourceId := some sourceId }, s1)

/-- `respawnPlayer`, lines 558-570.  Note what it does *not* touch:
`respawnTime`, `score` and `lastShotTime` keep their previous values. -/
def respawnPlayer (i : Fin 5) (playerId : String) (s : GameState) : GameState :=
  match lookupPlayer s playerId with
  | none => s
  | some _ =>
    modifyPlayer s playerId (fun p =>
      { p with
        health := 100
        isAlive := true
        velocity := ⟨0, 0, 0⟩
        position := getRandomSpawnPoint i })

/-- Clamp one axis to `[lo, hi]`, zeroing the velocity on contact — the
per-axis body of the world-bounds block of `updatePlayerPhysics`
(lines 317-340). -/
def clampAxis (pos vel lo hi : ℚ) : ℚ × ℚ :=
  if pos < lo then (lo, 0)
  else if pos > hi then (hi, 0)
  else (pos, vel)

/-- `updatePlayerPhysics`, lines 289-341, as a pure transform of the player
record (gravity is commented out in the source). -/
def updatePlayerPhysics (pr : MathPrims) (deltaTime : ℚ) (player : Player) : Player :=
  let v1 : Vec3 :=
    ⟨player.velocity.x * (1 - DRAG_COEFFICIENT * deltaTime),
     player.velocity.y * (1 - DRAG_COEFFICIENT * deltaTime),
     player.velocity.z * (1 - DRAG_COEFFICIENT * deltaTime)⟩
  let speed := pr.sqrt (v1.x * v1.x + v1.y * v1.y + v1.z * v1.z)
  let v2 : Vec3 :=
    if speed > MAX_VELOCITY then
      ⟨v1.x * (MAX_VELOCITY / speed), v1.y * (MAX_VELOCITY / speed), v1.z * (MAX_VELOCITY / speed)⟩
    else v1
  let pos1 : Vec3 :=
    ⟨player.position.x + v2.x * deltaTime,
     player.position.y + v2.y * deltaTime,
     player.position.z + v2.z * deltaTime⟩
  let cx := clampAxis pos1.x v2.x CITY_BOUNDS.minX CITY_BOUNDS.maxX
  let cy := clampAxis pos1.y v2.y CITY_BOUNDS.minY CITY_BOUNDS.maxY
  let cz := clampAxis pos1.z v2.z CITY_BOUNDS.minZ CITY_BOUNDS.maxZ
  { player with position := ⟨cx.1, cy.1, cz.1⟩, velocity := ⟨cx.2, cy.2, cz.2⟩ }

/-- `checkBoxCollision`, lines 706-718. -/
def checkBoxCollision (pos1 size1 pos2 size2 : Vec3) : Prop :=
  pos1.x + size1.x / 2 > pos2.x - size2.x / 2 ∧
  pos1.x - size1.x / 2 < pos2.x + size2.x / 2 ∧
  pos1.y + size1.y / 2 > pos2.y - size2.y / 2 ∧
  pos1.y - size1.y / 2 < pos2.y + size2.y / 2 ∧
  pos1.z + size1.z / 2 > pos2.z - size2.z / 2 ∧
  pos1.z - size1.z / 2 < pos2.z + size2.z / 2

instance (pos1 size1 pos2 size2 : Vec3) : Decidable (checkBoxCollision pos1 size1 pos2 size2) := by
  unfold checkBoxCollision; infer_instance

/-- `checkSphereCollision`, lines 728-739. -/
def checkSphereCollision (pos1 : Vec3) (radius1 : ℚ) (pos2 : Vec3) (radius2 : ℚ) : Prop :=
  (pos1.x - pos2.x) * (pos1.x - pos2.x) +
  (pos1.y - pos2.y) * (pos1.y - pos2.y) +
  (pos1.z - pos2.z) * (pos1.z - pos2.z) < (radius1 + radius2) * (radius1 + radius2)

instance (pos1 : Vec3) (radius1 : ℚ) (pos2 : Vec3) (radius2 : ℚ) :
    Decidable (checkSphereCollision pos1 radius1 pos2 radius2) := by
  unfold checkSphereCollision; infer_instance

/-- The player collision box size `{x: 8, y: 3, z: 16}` of
`checkPlayerCityCollisions` (line 349). -/
def playerBoxSize : Vec3 := ⟨8, 3, 16⟩

/-- One iteration of the building loop of `checkPlayerCityCollisions`
(lines 351-402), acting on the live player record under key `pid`. -/
def cityCollisionStep (pr : MathPrims) (now : ℤ) (pid : String)
    (s : GameState) (building : Building) : GameState :=
  match lookupPlayer s pid with
  | none => s
  | some player =>
    if player.position.y - playerBoxSize.y / 2 >
        building.position.y + building.size.y / 2 + 1 then s
    else if checkBoxCollision player.position playerBoxSize building.position building.size then
      let dx := player.position.x - building.position.x
      let dy := player.position.y - building.position.y
      let dz := player.position.z - building.position.z
      let length := pr.sqrt (dx * dx + dy * dy + dz * dz)
      if length = 0 then s
      else
        let nx := dx / length
        let ny := dy / length
        let nz := dz / length
        let relativeVelocity :=
          -(player.velocity.x * nx + player.velocity.y * ny + player.velocity.z * nz)
        if relativeVelocity > 5 then
          let damage : ℤ := ⌊relativeVelocity * 0.5⌋
          let s1 := if damage > 0 then (playerHit now pid (damage : ℚ) "collision" s).2 else s
          let bounceForce := relativeVelocity * 0.5
          modifyPlayer s1 pid (fun p =>
            { p with
              velocity :=
                ⟨p.velocity.x + nx * bounceForce,
                 p.velocity.y + ny * bounceForce,
                 p.velocity.z + nz * bounceForce⟩
              position :=
                ⟨p.position.x + nx * 2, p.position.y + ny * 2, p.position.z + nz * 2⟩ })
        else s
    else s

/-- `checkPlayerCityCollisions`, lines 347-403: the building loop has no
early exit, so it is a fold over the whole city layout. -/
def checkPlayerCityCollisions (pr : MathPrims) (now : ℤ) (pid : String)
    (s : GameState) : GameState :=
  s.cityLayout.foldl (cityCollisionStep pr now pid) s

/-- One iteration of the `Object.values(players).forEach` loop of
`checkPlayerCollisions` (lines 413-480), between the live records under
`pid` and `otherId`. -/
def pvpCollisionStep (pr : MathPrims) (now : ℤ) (pid : String)
    (s : GameState) (otherId : String) : GameState :=
  match lookupPlayer s pid, lookupPlayer s otherId with
  | some player, some otherPlayer =>
    if pid = otherId ∨ ¬ otherPlayer.isAlive ∨ ¬ player.isAlive then s
    else if checkSphereCollision player.position 5 otherPlayer.position 5 then
      let dx := player.position.x - otherPlayer.position.x
      let dy := player.position.y - otherPlayer.position.y
      let dz := player.position.z - otherPlayer.position.z
      let length := pr.sqrt (dx * dx + dy * dy + dz * dz)
      if length = 0 then s
      else
        let nx := dx / length
        let ny := dy / length
        let nz := dz / length
        let impactVelocity :=
          (player.velocity.x - otherPlayer.velocity.x) * nx +
          (player.velocity.y - otherPlayer.velocity.y) * ny +
          (player.velocity.z - otherPlayer.velocity.z) * nz
        if impactVelocity > 0 then s
        else
          let s1 :=
            if |impactVelocity| > 10 then
              let damage : ℤ := ⌊|impactVelocity| * 0.3⌋
              (playerHit now otherId (damage : ℚ) "collision"
                (playerHit now pid (damage : ℚ) "collision" s).2).2
            else s
          let impulse := -impactVelocity * (1 + 0.8)
          let s2 := modifyPlayer s1 pid (fun p =>
            { p with velocity :=
              ⟨p.velocity.x + nx * impulse * 0.5,
               p.velocity.y + ny * impulse * 0.5,
               p.velocity.z + nz * impulse * 0.5⟩ })
          let s3 := modifyPlayer s2 otherId (fun p =>
            { p with velocity :=
              ⟨p.velocity.x - nx * impulse * 0.5,
               p.velocity.y - ny * impulse * 0.5,
               p.velocity.z - nz * impulse * 0.5⟩ })
          let s4 := modifyPlayer s3 pid (fun p =>
            { p with position :=
              ⟨p.position.x + nx * 0.5, p.position.y + ny * 0.5, p.position.z + nz * 0.5⟩ })
          modifyPlayer s4 otherId (fun p =>
            { p with position :=
              ⟨p.position.x - nx * 0.5, p.position.y - ny * 0.5, p.position.z - nz * 0.5⟩ })
    else s
  | _, _ => s

/-- `checkPlayerCollisions`, lines 409-481: fold over the snapshot of player
ids taken when the pass starts. -/
def checkPlayerCollisions (pr : MathPrims) (now : ℤ) (pid : String)
    (s : GameState) : GameState :=
  (s.players.map (fun p => p.id)).foldl (pvpCollisionStep pr now pid) s

/-- One iteration of the `Object.values(players).forEach` hit loop inside
`updateLasers` (lines 505-527), for the (already moved) laser `laser`
against the live record under `pid`; the accumulator carries the state and
the growing `lasersToRemove` list. -/
def laserPlayerStep (now : ℤ) (laser : Laser) (acc : GameState × List String)
    (pid : String) : GameState × List String :=
  match lookupPlayer acc.1 pid with
  | none => acc
  | some player =>
    if laser.playerId = player.id ∨ ¬ player.isAlive then acc
    else
      let dx := player.position.x - laser.position.x
      let dy := player.position.y - laser.position.y
      let dz := player.position.z - laser.position.z
      let distanceSquared := dx * dx + dy * dy + dz * dz
      if distanceSquared < 5 * 5 then
        ((playerHit now player.id LASER_DAMAGE laser.playerId acc.1).2, acc.2 ++ [laser.id])
      else acc

/-- The player-hit loop of one laser: fold over the id snapshot taken when
the loop starts. -/
def laserHitLoop (now : ℤ) (laser : Laser) (s : GameState) (toRemove : List String) :
    GameState × List String :=
  (s.players.map (fun p => p.id)).foldl (laserPlayerStep now laser) (s, toRemove)

/-- The building test of `updateLasers` (lines 530-547): a building destroys
the laser when it is not skipped as far below the laser and the laser point
is inside its box.  The loop's `break` only stops further pushes of the same
id, so membership is an `any`. -/
def laserHitsBuilding (laser : Laser) (b : Building) : Prop :=
  ¬ (laser.position.y > b.position.y + b.size.y / 2 + 10) ∧
  laser.position.x ≥ b.position.x - b.size.x / 2 ∧
  laser.position.x ≤ b.position.x + b.size.x / 2 ∧
  laser.position.y ≥ b.position.y - b.size.y / 2 ∧
  laser.position.y ≤ b.position.y + b.size.y / 2 ∧
  laser.position.z ≥ b.position.z - b.size.z / 2 ∧
  laser.position.z ≤ b.position.z + b.size.z / 2

instance (laser : Laser) (b : Building) : Decidable (laserHitsBuilding laser b) := by
  unfold laserHitsBuilding; infer_instance

/-- Accumulator of the laser pass: the threaded state, the lasers as mutated
so far (position updates), and the collected `lasersToRemove` ids. -/
structure LaserPass where
  state : GameState
  processed : List Laser
  toRemove : List String
deriving Repr

/-- One iteration of the `lasers.forEach` body of `updateLasers`
(lines 492-548): expiry check first (before any movement or damage), then
movement, the player-hit loop and the building check. -/
def laserStep (deltaTime : ℚ) (now : ℤ) (acc : LaserPass) (laser : Laser) : LaserPass :=
  if now - laser.createdAt > laser.timeToLive then
    { acc with processed := acc.processed ++ [laser], toRemove := acc.toRemove ++ [laser.id] }
  else
    let laser1 : Laser :=
      { laser with position :=
        ⟨laser.position.x + laser.velocity.x * deltaTime,
         laser.position.y + laser.velocity.y * deltaTime,
         laser.position.z + laser.velocity.z * deltaTime⟩ }
    let hit := laserHitLoop now laser1 acc.state acc.toRemove
    let rem2 :=
      if acc.state.cityLayout.any (fun b => decide (laserHitsBuilding laser1 b)) then
        hit.2 ++ [laser1.id]
      else hit.2
    { state := hit.1, processed := acc.processed ++ [laser1], toRemove := rem2 }

/-- `updateLasers`, lines 487-552: process every laser, then drop from the
(mutated) laser array every laser whose id was collected for removal. -/
def updateLasers (deltaTime : ℚ) (now : ℤ) (s : GameState) : GameState :=
  let pass := s.lasers.foldl (laserStep deltaTime now) ⟨s, [], []⟩
  { pass.state with
    lasers := pass.processed.filter (fun l => ¬ pass.toRemove.contains l.id) }

/-- The body of the per-player `forEach` of `update` (lines 259-278):
respawn check, then (re-reading the live record) skip dead players, then
physics and the two collision passes. -/
def playerTickStep (pr : MathPrims) (spawnChoice : String → Fin 5) (deltaTime : ℚ)
    (now : ℤ) (s : GameState) (pid : String) : GameState :=
  match lookupPlayer s pid with
  | none => s
  | some player =>
    let s1 :=
      if ¬ player.isAlive ∧ player.respawnTime ≤ now then
        respawnPlayer (spawnChoice pid) pid s
      else s
    match lookupPlayer s1 pid with
    | none => s1
    | some player1 =>
      if ¬ player1.isAlive then s1
      else
        let s2 := modifyPlayer s1 pid (updatePlayerPhysics pr deltaTime)
        let s3 := checkPlayerCityCollisions pr now pid s2
        checkPlayerCollisions pr now pid s3

/-- `update`, lines 255-282: the tick.  The id list is the `Object.keys`
snapshot taken at the start (no keys are added or removed during a tick). -/
def update (pr : MathPrims) (spawnChoice : String → Fin 5) (deltaTime : ℚ)
    (now : ℤ) (s : GameState) : GameState :=
  let ids := s.players.map (fun p => p.id)
  updateLasers deltaTime now (ids.foldl (playerTickStep pr spawnChoice deltaTime now) s)

/-- The `laser:hit` socket handler, `socketHandlers.ts` lines 132-179:
validates that the reported target exists and is alive, applies
`playerHit(targetId, LASER_DAMAGE, socket.id)`, and on a kill increments the
killer's score once more.  Returns the boolean the handler returns. -/
def laserHitHandler (now : ℤ) (shooterId : String) (hitData : HitData)
    (s : GameState) : Bool × GameState :=
  match lookupPlayer s hitData.targetId with
  | none => (false, s)
  | some targetPlayer =>
    if ¬ targetPlayer.isAlive then (false, s)
    else
      let hit := playerHit now hitData.targetId LASER_DAMAGE shooterId s
      let s2 :=
        if hit.1.killed = some true then
          match lookupPlayer hit.2 shooterId with
          | none => hit.2
          | some _ => modifyPlayer hit.2 shooterId (fun p => { p with score := p.score + 1 })
        else hit.2
      (true, s2)

namespace Client

/-- Client `BoxCollider`, `collisionSystem.ts` lines 14-25. -/
structure BoxCollider where
  position : Vec3
  size : Vec3
deriving DecidableEq, Repr

/-- Client `PlayerStats` (position and velocity), lines 33-40. -/
structure PlayerStats where
  position : Vec3
  velocity : Vec3
deriving DecidableEq, Repr

/-- Client `boxCollision`, lines 341-347. -/
def boxCollision (box1 box2 : BoxCollider) : Prop :=
  |box1.position.x - box2.position.x| < box1.size.x / 2 + box2.size.x / 2 ∧
  |box1.position.y - box2.position.y| < box1.size.y / 2 + box2.size.y / 2 ∧
  |box1.position.z - box2.position.z| < box1.size.z / 2 + box2.size.z / 2

instance (box1 box2 : BoxCollider) : Decidable (boxCollision box1 box2) := by
  unfold boxCollision; infer_instance

/-- Client `handleVerticalCollision`, lines 198-229 (the sound-effect part,
which does not touch position or velocity, is not modelled). -/
def handleVerticalCollision (playerStats : PlayerStats) (building : BoxCollider)
    (isTop : Bool) : PlayerStats :=
  if isTop then
    let buildingTop := building.position.y + building.size.y / 2
    let playerHalfHeight : ℚ := 1.5
    { position := ⟨playerStats.position.x, buildingTop + playerHalfHeight, playerStats.position.z⟩
      velocity :=
        ⟨playerStats.velocity.x * 0.95,
         if playerStats.velocity.y < 0 then 0 else playerStats.velocity.y,
         playerStats.velocity.z * 0.95⟩ }
  else playerStats

/-- Client `handleBuildingCollision`, lines 236-320 (the unused local
`distanceSquared` and the sound/debug effects are not modelled). -/
def handleBuildingCollision (pr : MathPrims) (playerStats : PlayerStats)
    (building : BoxCollider) : PlayerStats :=
  let cx := playerStats.position.x - building.position.x
  let cy := playerStats.position.y - building.position.y
  let cz := playerStats.position.z - building.position.z
  let length := pr.sqrt (cx * cx + cy * cy + cz * cz)
  let nx := if length > 0 then cx / length else cx
  let ny := if length > 0 then cy / length else cy
  let nz := if length > 0 then cz / length else cz
  let velocityAlongCollision :=
    playerStats.velocity.x * nx + playerStats.velocity.y * ny + playerStats.velocity.z * nz
  let bumpDistance := 3 + |velocityAlongCollision| * 0.1
  let pos1 : Vec3 :=
    ⟨playerStats.position.x + nx * bumpDistance * 1.2,
     playerStats.position.y + ny * bumpDistance * 0.8,
     playerStats.position.z + nz * bumpDistance * 1.2⟩
  let vel1 : Vec3 :=
    if velocityAlongCollision < 0 then
      let repulsionStrength := -velocityAlongCollision * 0.3
      ⟨playerStats.velocity.x + nx * repulsionStrength,
       playerStats.velocity.y + ny * repulsionStrength,
       playerStats.velocity.z + nz * repulsionStrength⟩
    else
      ⟨(playerStats.velocity.x - velocityAlongCollision * nx) * 0.8,
       (playerStats.velocity.y - velocityAlongCollision * ny) * 0.8,
       (playerStats.velocity.z - velocityAlongCollision * nz) * 0.8⟩
  { position := pos1, velocity := vel1 }

/-- The landing test of `checkCollisions` (lines 111-122): player bottom
within 3 units of the building top, with horizontal overlap on both axes.
`box` is the fixed player collision box built at entry. -/
def landingCond (box : BoxCollider) (building : BoxCollider) : Prop :=
  (box.position.y - box.size.y / 2 ≥ building.position.y + building.size.y / 2 - 3 ∧
   box.position.y - box.size.y / 2 ≤ building.position.y + building.size.y / 2 + 3) ∧
  |box.position.x - building.position.x| < box.size.x / 2 + building.size.x / 2 ∧
  |box.position.z - building.position.z| < box.size.z / 2 + building.size.z / 2

instance (box building : BoxCollider) : Decidable (landingCond box building) := by
  unfold landingCond; infer_instance

/-- The building loop of client `checkCollisions` (lines 95-140): detection
always uses the fixed entry box `box`, responses accumulate on the stats;
after a landing the loop continues, after a side collision it breaks unless
a landing already happened. -/
def buildingLoop (pr : MathPrims) (box : BoxCollider) :
    List BoxCollider → PlayerStats → Bool → PlayerStats
  | [], playerStats, _ => playerStats
  | b :: rest, playerStats, verticalCollision =>
    if box.position.y - box.size.y / 2 > b.position.y + b.size.y / 2 + 1 then
      buildingLoop pr box rest playerStats verticalCollision
    else if boxCollision box b then
      if landingCond box b then
        buildingLoop pr box rest (handleVerticalCollision playerStats b true) true
      else
        let ps1 := handleBuildingCollision pr playerStats b
        if verticalCollision then buildingLoop pr box rest ps1 verticalCollision else ps1
    else buildingLoop pr box rest playerStats verticalCollision

/-- The client world bounds of `checkCollisions`, lines 143-150. -/
def worldBounds : CityBounds :=
  { minX := -10000, maxX := 10000, minY := 5, maxY := 2000, minZ := -10000, maxZ := 10000 }

/-- Client `checkCollisions`, lines 66-190, reduced to its effect on the
player position and velocity: build the fixed player box (size 8×3×16), run
the building loop, then clamp to the world bounds. -/
def checkCollisions (pr : MathPrims) (buildings : List BoxCollider)
    (position velocity : Vec3) : PlayerStats :=
  let playerBox : BoxCollider := { position := position, size := ⟨8, 3, 16⟩ }
  let ps := buildingLoop pr playerBox buildings { position := position, velocity := velocity } false
  let cx := clampAxis ps.position.x ps.velocity.x worldBounds.minX worldBounds.maxX
  let cy := clampAxis ps.position.y ps.velocity.y worldBounds.minY worldBounds.maxY
  let cz := clampAxis ps.position.z ps.velocity.z worldBounds.minZ worldBounds.maxZ
  { position := ⟨cx.1, cy.1, cz.1⟩, velocity := ⟨cx.2, cy.2, cz.2⟩ }

end Client

theorem foldl_preserves {σ : Type _} {α : Type _} {P : σ → Prop} {f : σ → α → σ}
    (hf : ∀ s a, P s → P (f s a)) :
    ∀ (l : List α) (s : σ), P s → P (l.foldl f s) := by
  intro l
  induction l with
  | nil => intro s hs; exact hs
  | cons a t ih => intro s hs; exact ih _ (hf s a hs)

theorem find?_map_of_id (g : Player → Player) (hg : ∀ p, (g p).id = p.id) (pid : String) :
    ∀ l : List Player,
      (l.map g).find? (fun p => p.id = pid) = (l.find? (fun p => p.id = pid)).map g := by
  intro l
  induction l with
  | nil => rfl
  | cons p t ih =>
    simp only [List.map_cons, List.find?, hg p]
    cases h : decide (p.id = pid) with
    | false => simpa [h] using ih
    | true => simp [h]

theorem lookupPlayer_modifyPlayer (s : GameState) (q pid : String) (f : Player → Player)
    (hf : ∀ p, (f p).id = p.id) :
    lookupPlayer (modifyPlayer s q f) pid
      = (lookupPlayer s pid).map (fun p => if p.id = q then f p else p) := by
  unfold lookupPlayer modifyPlayer
  exact find?_map_of_id _ (fun p => by by_cases h : p.id = q <;> simp [h, hf]) pid s.players

theorem lookupPlayer_mem {s : GameState} {pid : String} {p : Player}
    (h : lookupPlayer s pid = some p) : p ∈ s.players ∧ p.id = pid := by
  refine ⟨List.mem_of_find?_eq_some h, ?_⟩
  have := List.find?_some h
  simpa using this

/-- Claim C2's invariant: every player's health lies in `[0, 100]`. -/
def healthInv (s : GameState) : Prop :=
  ∀ p ∈ s.players, 0 ≤ p.health ∧ p.health ≤ 100

theorem healthInv_modifyPlayer {s : GameState} {pid : String} {f : Player → Player}
    (hs : healthInv s)
    (hf : ∀ p, 0 ≤ p.health → p.health ≤ 100 → 0 ≤ (f p).health ∧ (f p).health ≤ 100) :
    healthInv (modifyPlayer s pid f) := by
  intro p' hp'
  simp only [modifyPlayer, List.mem_map] at hp'
  obtain ⟨p, hp, rfl⟩ := hp'
  by_cases h : p.id = pid
  · simpa [h] using hf p (hs p hp).1 (hs p hp).2
  · simpa [h] using hs p hp

theorem healthInv_playerHit {now : ℤ} {pid : String} {damage : ℚ} {src : String}
    {s : GameState} (hd : 0 ≤ damage) (hs : healthInv s) :
    healthInv (playerHit now pid damage src s).2 := by
  unfold playerHit
  cases hl : lookupPlayer s pid with
  | none => exact hs
  | some player =>
    have hb := hs player (lookupPlayer_mem hl).1
    by_cases ha : ¬ player.isAlive
    · simpa [ha] using hs
    · simp only [ha, if_false]
      by_cases hk : player.health - damage ≤ 0
      · simp only [hk, if_true]
        split_ifs with haw
        · refine healthInv_modifyPlayer (healthInv_modifyPlayer hs ?_) ?_
          · intro p _ _; exact ⟨le_refl 0, by norm_num⟩
          · intro p h0 h100; exact ⟨h0, h100⟩
        · exact healthInv_modifyPlayer hs (fun p _ _ => ⟨le_refl 0, by norm_num⟩)
      · simp only [hk, if_false]
        refine healthInv_modifyPlayer hs (fun p _ _ => ⟨?_, ?_⟩) <;> dsimp only
        · linarith [not_le.mp hk]
        · linarith [hb.2]

theorem updatePlayerPhysics_health (pr : MathPrims) (dt : ℚ) (p : Player) :
    (updatePlayerPhysics pr dt p).health = p.health := rfl

theorem healthInv_cityCollisionStep {pr : MathPrims} {now : ℤ} {pid : String}
    {s : GameState} {b : Building} (hs : healthInv s) :
    healthInv (cityCollisionStep pr now pid s b) := by
  unfold cityCollisionStep
  cases hl : lookupPlayer s pid with
  | none => exact hs
  | some player =>
    dsimp only
    split_ifs with h1 h2 h3 h4 h5
    any_goals exact hs
    · refine healthInv_modifyPlayer (healthInv_playerHit ?_ hs) ?_
      · exact_mod_cast h5.le
      · intro p h0 h100; exact ⟨h0, h100⟩
    · exact healthInv_modifyPlayer hs (fun p h0 h100 => ⟨h0, h100⟩)

theorem healthInv_checkPlayerCityCollisions {pr : MathPrims} {now : ℤ} {pid : String}
    {s : GameState} (hs : healthInv s) :
    healthInv (checkPlayerCityCollisions pr now pid s) :=
  foldl_preserves (fun s' b hs' => healthInv_cityCollisionStep hs') s.cityLayout s hs

theorem healthInv_pvpCollisionStep {pr : MathPrims} {now : ℤ} {pid : String}
    {s : GameState} {otherId : String} (hs : healthInv s) :
    healthInv (pvpCollisionStep pr now pid s otherId) := by
  unfold pvpCollisionStep
  cases h1 : lookupPlayer s pid with
  | none => exact hs
  | some player =>
    cases h2 : lookupPlayer s otherId with
    | none => exact hs
    | some otherPlayer =>
      dsimp only
      split_ifs with g1 g2 g3 g4 g5
      any_goals exact hs
      all_goals
        refine healthInv_modifyPlayer (healthInv_modifyPlayer
          (healthInv_modifyPlayer (healthInv_modifyPlayer ?_
            (fun p h0 h100 => ⟨h0, h100⟩)) (fun p h0 h100 => ⟨h0, h100⟩))
          (fun p h0 h100 => ⟨h0, h100⟩)) (fun p h0 h100 => ⟨h0, h100⟩)
      · exact healthInv_playerHit (by exact_mod_cast Int.floor_nonneg.mpr (by positivity))
          (healthInv_playerHit (by exact_mod_cast Int.floor_nonneg.mpr (by positivity)) hs)
      · exact hs

theorem healthInv_checkPlayerCollisions {pr : MathPrims} {now : ℤ} {pid : String}
    {s : GameState} (hs : healthInv s) :
    healthInv (checkPlayerCollisions pr now pid s) :=
  foldl_preserves (fun _ _ h => healthInv_pvpCollisionStep h) _ s hs

theorem healthInv_laserPlayerStep {now : ℤ} {laser : Laser}
    {acc : GameState × List String} {pid : String} (hs : healthInv acc.1) :
    healthInv (laserPlayerStep now laser acc pid).1 := by
  unfold laserPlayerStep
  cases hl : lookupPlayer acc.1 pid with
  | none => exact hs
  | some player =>
    dsimp only
    split_ifs with h1 h2
    · exact hs
    · exact healthInv_playerHit (by norm_num [LASER_DAMAGE]) hs
    · exact hs

theorem healthInv_laserHitLoop {now : ℤ} {laser : Laser} {s : GameState}
    {toRemove : List String} (hs : healthInv s) :
    healthInv (laserHitLoop now laser s toRemove).1 :=
  foldl_preserves (P := fun acc => healthInv acc.1)
    (fun _ _ h => healthInv_laserPlayerStep h) _ (s, toRemove) hs

theorem healthInv_laserStep {dt : ℚ} {now : ℤ} {acc : LaserPass} {laser : Laser}
    (hs : healthInv acc.state) :
    healthInv (laserStep dt now acc laser).state := by
  unfold laserStep
  split_ifs with h1
  · exact hs
  · exact healthInv_laserHitLoop hs

theorem healthInv_updateLasers {dt : ℚ} {now : ℤ} {s : GameState} (hs : healthInv s) :
    healthInv (updateLasers dt now s) := by
  unfold updateLasers
  exact foldl_preserves (P := fun acc : LaserPass => healthInv acc.state)
    (fun _ _ h => healthInv_laserStep h) s.lasers ⟨s, [], []⟩ hs

theorem healthInv_respawnPlayer {i : Fin 5} {pid : String} {s : GameState}
    (hs : healthInv s) : healthInv (respawnPlayer i pid s) := by
  unfold respawnPlayer
  cases lookupPlayer s pid with
  | none => exact hs
  | some _ => exact healthInv_modifyPlayer hs (fun p _ _ => ⟨by norm_num, by norm_num⟩)

theorem healthInv_playerTickStep {pr : MathPrims} {sc : String → Fin 5} {dt : ℚ}
    {now : ℤ} {s : GameState} {pid : String} (hs : healthInv s) :
    healthInv (playerTickStep pr sc dt now s pid) := by
  unfold playerTickStep
  cases lookupPlayer s pid with
  | none => exact hs
  | some player =>
    dsimp only
    set s1 := if ¬ player.isAlive = true ∧ player.respawnTime ≤ now then
        respawnPlayer (sc pid) pid s else s with hs1def
    have hs1 : healthInv s1 := by
      rw [hs1def]; split_ifs
      · exact healthInv_respawnPlayer hs
      · exact hs
    cases lookupPlayer s1 pid with
    | none => exact hs1
    | some player1 =>
      dsimp only
      split_ifs
      · exact healthInv_checkPlayerCollisions (healthInv_checkPlayerCityCollisions
          (healthInv_modifyPlayer hs1 (fun p h0 h100 => by
            rw [updatePlayerPhysics_health]; exact ⟨h0, h100⟩)))
      · exact hs1

theorem healthInv_update {pr : MathPrims} {sc : String → Fin 5} {dt : ℚ} {now : ℤ}
    {s : GameState} (hs : healthInv s) : healthInv (update pr sc dt now s) := by
  unfold update
  exact healthInv_updateLasers (foldl_preserves
    (fun _ _ h => healthInv_playerTickStep h) _ s hs)

theorem healthInv_addPlayer {i : Fin 5} {now : ℤ} {pid : String} {d : PlayerInit}
    {s : GameState} (hs : healthInv s) : healthInv (addPlayer i now pid d s).2 := by
  unfold addPlayer
  dsimp only
  split_ifs
  · intro p' hp'
    simp only [List.mem_map] at hp'
    obtain ⟨p, hp, rfl⟩ := hp'
    by_cases h : p.id = pid
    · simp [h]
    · simpa [h] using hs p hp
  · intro p' hp'
    rcases List.mem_append.mp hp' with h | h
    · exact hs p' h
    · simp only [List.mem_singleton] at h
      subst h
      exact ⟨by norm_num, by norm_num⟩

theorem healthInv_updatePlayer {now : ℤ} {pid : String} {u : PlayerInit}
    {s : GameState} (hs : healthInv s) : healthInv (updatePlayer now pid u s).2 := by
  unfold updatePlayer
  cases lookupPlayer s pid with
  | none => exact hs
  | some _ => exact healthInv_modifyPlayer hs (fun p h0 h100 => ⟨h0, h100⟩)

/-- The states reachable by the operations claim C2 names: a fresh state
(any generated city layout, no players, no lasers), then `addPlayer`,
`playerHit` with non-negative damage, `respawnPlayer`, `updatePlayer` and
the tick `update`. -/
inductive Reach : GameState → Prop
  | start (cityLayout : List Building) : Reach ⟨[], [], cityLayout⟩
  | add (i : Fin 5) (now : ℤ) (pid : String) (d : PlayerInit) {s : GameState} :
      Reach s → Reach (addPlayer i now pid d s).2
  | hit (now : ℤ) (pid : String) (damage : ℚ) (src : String) {s : GameState} :
      0 ≤ damage → Reach s → Reach (playerHit now pid damage src s).2
  | respawn (i : Fin 5) (pid : String) {s : GameState} :
      Reach s → Reach (respawnPlayer i pid s)
  | playerUpd (now : ℤ) (pid : String) (u : PlayerInit) {s : GameState} :
      Reach s → Reach (updatePlayer now pid u s).2
  | tick (pr : MathPrims) (sc : String → Fin 5) (dt : ℚ) (now : ℤ) {s : GameState} :
      Reach s → Reach (update pr sc dt now s)

-- Concrete fixture states used by witnesses and counterexamples below.

/-- Fixture: a freshly added player with the given id, position, velocity
and health (other fields as `addPlayer` leaves them at time 0). -/
def mkPlayer (id : String) (pos vel : Vec3) (health : ℚ) : Player :=
  { id := id, position := pos, rotation := ⟨0, 0, 0⟩, velocity := vel, health := health,
    score := 0, lastUpdate := 0, isAlive := true, respawnTime := 0, lastShotTime := 0 }

/-- Fixture for C3: player A resting exactly on the east world boundary,
player B one unit inside, drifting toward A. -/
def stTwoAtBound : GameState :=
  { players := [mkPlayer "A" ⟨1000, 500, 0⟩ ⟨0, 0, 0⟩ 100,
                mkPlayer "B" ⟨999, 500, 0⟩ ⟨1, 0, 0⟩ 100],
    lasers := [], cityLayout := [] }

/-- Fixture for C1: shooter A at full health, victim B at 10 health. -/
def stShooterVictim : GameState :=
  { players := [mkPlayer "A" ⟨0, 0, 0⟩ ⟨0, 0, 0⟩ 100, mkPlayer "B" ⟨0, 0, 0⟩ ⟨0, 0, 0⟩ 10],
    lasers := [], cityLayout := [] }

/-- Fixture for C5: a single player at full health. -/
def stSolo : GameState :=
  { players := [mkPlayer "A" ⟨0, 0, 0⟩ ⟨0, 0, 0⟩ 100], lasers := [], cityLayout := [] }

/-- Fixture for C7: a player at 6 health flying into the gap between two
buildings of adjacent city-grid cells, touching both collision boxes. -/
def pKam : Player := mkPlayer "K" ⟨303/2, 90, 107⟩ ⟨-12, 0, -13⟩ 6

/-- First building (grid cell x=1, z=1): its collision kills `pKam`. -/
def bKill : Building :=
  { position := ⟨124, 90, 107⟩, size := ⟨48, 180, 48⟩, btype := "building", height := 180 }

/-- Second building (grid cell x=2, z=1): collides with the already dead
`pKam` later in the same pass. -/
def bAfter : Building :=
  { position := ⟨357/2, 90, 323/4⟩, size := ⟨48, 180, 48⟩, btype := "building", height := 180 }

/-- Fixture state for C7. -/
def stCityPass : GameState := { players := [pKam], lasers := [], cityLayout := [bKill, bAfter] }

/-- Fixture for C6 and C2: player D added at time 0, then killed by a
collision hit at time 1000, so `respawnTime = 4000`. -/
def stKilled : GameState :=
  (playerHit 1000 "D" 100 "collision" (addPlayer 0 0 "D" {} ⟨[], [], []⟩).2).2

/-- Fixture laser for C8: created at time 0 with the default 2000 ms TTL,
motionless so nothing else interferes. -/
def laserStale : Laser :=
  { id := "L", playerId := "A", position := ⟨500, 500, 500⟩, rotation := ⟨0, 0, 0⟩,
    velocity := ⟨0, 0, 0⟩, createdAt := 0, timeToLive := 2000 }

/-- Fixture state for C8. -/
def stStaleLaser : GameState :=
  { players := [mkPlayer "A" ⟨0, 0, 0⟩ ⟨0, 0, 0⟩ 100], lasers := [laserStale], cityLayout := [] }

theorem respawnPlayer_lookup (i : Fin 5) (pid : String) (s : GameState) (p : Player)
    (hl : lookupPlayer s pid = some p) :
    lookupPlayer (respawnPlayer i pid s) pid =
      some { p with health := 100, isAlive := true, velocity := ⟨0, 0, 0⟩,
                    position := getRandomSpawnPoint i } := by
  unfold respawnPlayer
  rw [hl]
  have hmod := lookupPlayer_modifyPlayer s pid pid
    (fun p => { p with health := 100, isAlive := true, velocity := ⟨0, 0, 0⟩,
                       position := getRandomSpawnPoint i }) (fun q => rfl)
  dsimp only at hmod ⊢
  rw [hmod, hl]
  simp [(lookupPlayer_mem hl).2]

/-- The record `playerHit 1000 "D" 100 "collision"` leaves behind in
`stKilled`: dead at zero health, respawn due at 4000. -/
def pDKilled : Player :=
  { id := "D", position := ⟨0, 100, 0⟩, rotation := ⟨0, 0, 0⟩, velocity := ⟨0, 0, 0⟩,
    health := 0, score := 0, lastUpdate := 0, isAlive := false,
    respawnTime := 4000, lastShotTime := 0 }

/-- C2: in every state reachable from a fresh state by `addPlayer`,
`playerHit` with non-negative damage, `respawnPlayer`, `updatePlayer` and
tick `update`s, every player's health satisfies `0 ≤ health ≤ 100`; and
immediately after the respawn transition the player's health is exactly
100. -/
theorem c2_health_in_range :
    (∀ s : GameState, Reach s → healthInv s) ∧
    (∀ (i : Fin 5) (pid : String) (s : GameState) (p : Player),
        lookupPlayer s pid = some p →
        ∃ p', lookupPlayer (respawnPlayer i pid s) pid = some p' ∧ p'.health = 100) := by
  constructor
  · intro s h
    induction h with
    | start cl => intro p hp; cases hp
    | add i now pid d hr ih => exact healthInv_addPlayer ih
    | hit now pid damage src hd hr ih => exact healthInv_playerHit hd ih
    | respawn i pid hr ih => exact healthInv_respawnPlayer ih
    | playerUpd now pid u hr ih => exact healthInv_updatePlayer ih
    | tick pr sc dt now hr ih => exact healthInv_update ih
  · intro i pid s p hl
    exact ⟨_, respawnPlayer_lookup i pid s p hl, rfl⟩

theorem c2_health_in_range_witness :
    healthInv (addPlayer 0 0 "A" {} ⟨[], [], []⟩).2 ∧
    (∃ p', lookupPlayer (respawnPlayer 0 "D" stKilled) "D" = some p' ∧ p'.health = 100) :=
  ⟨c2_health_in_range.1 _ (Reach.add 0 0 "A" {} (Reach.start [])),
   c2_health_in_range.2 0 "D" stKilled pDKilled (by decide!)⟩

/-- C6 (amended): the respawn transition sets health to 100, velocity to
zero, position to the chosen spawn point and the alive flag, and leaves
every other field — including the respawn-at timestamp, which is *not*
cleared — unchanged. -/
theorem c6_respawn_transition (i : Fin 5) (pid : String) (s : GameState) (p : Player)
    (hl : lookupPlayer s pid = some p) :
    lookupPlayer (respawnPlayer i pid s) pid =
      some { p with health := 100, isAlive := true, velocity := ⟨0, 0, 0⟩,
                    position := getRandomSpawnPoint i } :=
  respawnPlayer_lookup i pid s p hl

theorem c6_respawn_transition_witness :
    lookupPlayer (respawnPlayer 0 "D" stKilled) "D" =
      some { pDKilled with health := 100, isAlive := true, velocity := ⟨0, 0, 0⟩,
                           position := getRandomSpawnPoint 0 } :=
  c6_respawn_transition 0 "D" stKilled pDKilled (by decide!)

/-- C6 counterexample: the respawn transition does *not* clear the
respawn-at timestamp — player D's `respawnTime` is still 4000 (its stale
kill-time value, not the cleared value 0 that `addPlayer` uses) after
respawning. -/
theorem c6_respawn_time_not_cleared :
    (lookupPlayer stKilled "D").map Player.respawnTime = some 4000 ∧
    (lookupPlayer (respawnPlayer 0 "D" stKilled) "D").map Player.respawnTime = some 4000 ∧
    (4000 : ℤ) ≠ 0 := by decide!

theorem firePlayerLaser_none_iff (pr : MathPrims) (now : ℤ) (pid : String) (ld : LaserInit)
    (s : GameState) (p : Player) (hl : lookupPlayer s pid = some p) :
    ((firePlayerLaser pr now pid ld s).1 = none ↔
      (p.isAlive = false ∨ now - p.lastShotTime < 1000)) := by
  unfold firePlayerLaser
  rw [hl]
  dsimp only
  by_cases ha : p.isAlive
  · by_cases hc : now - p.lastShotTime < 1000 <;> simp [ha, hc]
  · simp [ha, Bool.not_eq_true _ |>.mp ha]

theorem firePlayerLaser_none_state (pr : MathPrims) (now : ℤ) (pid : String) (ld : LaserInit)
    (s : GameState) (p : Player) (hl : lookupPlayer s pid = some p) :
    (firePlayerLaser pr now pid ld s).1 = none → (firePlayerLaser pr now pid ld s).2 = s := by
  unfold firePlayerLaser
  rw [hl]
  dsimp only
  by_cases ha : p.isAlive
  · by_cases hc : now - p.lastShotTime < 1000 <;> simp [ha, hc]
  · simp [ha]

theorem firePlayerLaser_some_lastShot (pr : MathPrims) (now : ℤ) (pid : String) (ld : LaserInit)
    (s : GameState) (p : Player) (l : Laser) (hl : lookupPlayer s pid = some p) :
    (firePlayerLaser pr now pid ld s).1 = some l →
    lookupPlayer (firePlayerLaser pr now pid ld s).2 pid =
      some { p with lastShotTime := now } := by
  unfold firePlayerLaser
  rw [hl]
  dsimp only
  by_cases ha : p.isAlive
  · by_cases hc : now - p.lastShotTime < 1000
    · simp [ha, hc]
    · intro _
      have hmod2 : lookupPlayer (modifyPlayer s pid (fun q => { q with lastShotTime := now })) pid
          = some { p with lastShotTime := now } := by
        rw [lookupPlayer_modifyPlayer s pid pid
          (fun q => { q with lastShotTime := now }) (fun q => rfl), hl]
        simp [(lookupPlayer_mem hl).2]
      simpa [ha, hc, lookupPlayer] using hmod2
  · simp [ha]

/-- C4: for an existing player, `firePlayerLaser` returns `null` (changing
nothing) exactly when the player is dead or less than 1000 ms have elapsed
since their last shot; on success `lastShotTime` becomes `now`, so two
successive accepted shots of one player are at least the cooldown apart. -/
theorem c4_fire_cooldown :
    ∀ (pr : MathPrims) (now : ℤ) (pid : String) (ld : LaserInit) (s : GameState) (p : Player),
      lookupPlayer s pid = some p →
      (((firePlayerLaser pr now pid ld s).1 = none) ↔
        (p.isAlive = false ∨ now - p.lastShotTime < 1000)) ∧
      (((firePlayerLaser pr now pid ld s).1 = none) → (firePlayerLaser pr now pid ld s).2 = s) ∧
      (∀ l : Laser, (firePlayerLaser pr now pid ld s).1 = some l →
        (lookupPlayer (firePlayerLaser pr now pid ld s).2 pid).map Player.lastShotTime
          = some now) ∧
      (∀ (t2 : ℤ) (ld2 : LaserInit) (l1 l2 : Laser),
        (firePlayerLaser pr now pid ld s).1 = some l1 →
        (firePlayerLaser pr t2 pid ld2 (firePlayerLaser pr now pid ld s).2).1 = some l2 →
        1000 ≤ t2 - now) := by
  intro pr now pid ld s p hl
  refine ⟨firePlayerLaser_none_iff pr now pid ld s p hl,
          firePlayerLaser_none_state pr now pid ld s p hl, ?_, ?_⟩
  · intro l hsome
    rw [firePlayerLaser_some_lastShot pr now pid ld s p l hl hsome]
    rfl
  · intro t2 ld2 l1 l2 h1 h2
    have hs2 := firePlayerLaser_some_lastShot pr now pid ld s p l1 hl h1
    by_contra hlt
    push_neg at hlt
    have hnone : (firePlayerLaser pr t2 pid ld2 (firePlayerLaser pr now pid ld s).2).1 = none := by
      rw [firePlayerLaser_none_iff pr t2 pid ld2 _ _ hs2]
      right
      dsimp only
      omega
    rw [hnone] at h2
    cases h2

theorem c4_fire_cooldown_witness :
    (firePlayerLaser ratPrims 500 "A" {} stSolo).1 = none ∧
    (firePlayerLaser ratPrims 500 "A" {} stSolo).2 = stSolo :=
  have h := c4_fire_cooldown ratPrims 500 "A" {} stSolo
    (mkPlayer "A" ⟨0, 0, 0⟩ ⟨0, 0, 0⟩ 100) (by decide!)
  ⟨h.1.mpr (Or.inr (by decide!)), h.2.1 (h.1.mpr (Or.inr (by decide!)))⟩

theorem find?_append_none {l₁ l₂ : List Player} {f : Player → Bool}
    (h : l₁.find? f = none) : (l₁ ++ l₂).find? f = l₂.find? f := by
  induction l₁ with
  | nil => rfl
  | cons p t ih =>
    simp only [List.find?, List.cons_append] at h ⊢
    cases hf : f p with
    | false =>
      rw [hf] at h
      simpa [hf] using ih h
    | true => rw [hf] at h; cases h

/-- C10: join and move payloads cannot set combat state.  `addPlayer`
creates the player with health 100, score 0 and the alive flag no matter
what the payload contains, and stores exactly that record; `updatePlayer`
writes only position, rotation, velocity and `lastUpdate`, leaving health,
score, alive flag, respawn and shot timestamps unchanged. -/
theorem c10_payload_cannot_set_combat_state :
    (∀ (i : Fin 5) (now : ℤ) (pid : String) (d : PlayerInit) (s : GameState),
      (addPlayer i now pid d s).1.health = 100 ∧
      (addPlayer i now pid d s).1.score = 0 ∧
      (addPlayer i now pid d s).1.isAlive = true ∧
      lookupPlayer (addPlayer i now pid d s).2 pid = some (addPlayer i now pid d s).1) ∧
    (∀ (now : ℤ) (pid : String) (u : PlayerInit) (s : GameState) (p : Player),
      lookupPlayer s pid = some p →
      lookupPlayer (updatePlayer now pid u s).2 pid =
        some { p with position := u.position.getD p.position,
                      rotation := u.rotation.getD p.rotation,
                      velocity := u.velocity.getD p.velocity,
                      lastUpdate := now }) := by
  constructor
  · intro i now pid d s
    refine ⟨rfl, rfl, rfl, ?_⟩
    unfold addPlayer
    dsimp only
    split_ifs with hex
    · obtain ⟨q0, hq0⟩ := Option.isSome_iff_exists.mp hex
      have hgid : ∀ q : Player,
          ((fun q : Player => if q.id = pid then
            { id := pid, position := d.position.getD (getRandomSpawnPoint i),
              rotation := d.rotation.getD ⟨0, 0, 0⟩, velocity := d.velocity.getD ⟨0, 0, 0⟩,
              health := 100, score := 0, lastUpdate := now, isAlive := true,
              respawnTime := 0, lastShotTime := 0 } else q) q).id = q.id := by
        intro q; by_cases h : q.id = pid <;> simp [h]
      show (s.players.map _).find? _ = _
      rw [find?_map_of_id _ hgid pid s.players]
      have : s.players.find? (fun p => p.id = pid) = some q0 := hq0
      rw [this]
      simp [(lookupPlayer_mem hq0).2]
    · show (s.players ++ [_]).find? _ = _
      rw [find?_append_none (by simpa [lookupPlayer] using Option.not_isSome_iff_eq_none.mp hex)]
      simp [List.find?]
  · intro now pid u s p hl
    unfold updatePlayer
    rw [hl]
    dsimp only
    have hmod := lookupPlayer_modifyPlayer s pid pid
      (fun q => { q with position := u.position.getD q.position,
                         rotation := u.rotation.getD q.rotation,
                         velocity := u.velocity.getD q.velocity,
                         lastUpdate := now }) (fun q => rfl)
    rw [hmod, hl]
    simp [(lookupPlayer_mem hl).2]

theorem c10_payload_cannot_set_combat_state_witness :
    (addPlayer 0 0 "N" { health := some 1, score := some 50, isAlive := some false }
      stSolo).1.health = 100 ∧
    lookupPlayer (updatePlayer 7 "A" { position := some ⟨1, 2, 3⟩, health := some 1 }
        stSolo).2 "A" =
      some { mkPlayer "A" ⟨0, 0, 0⟩ ⟨0, 0, 0⟩ 100 with position := ⟨1, 2, 3⟩, lastUpdate := 7 } :=
  ⟨(c10_payload_cannot_set_combat_state.1 0 0 "N"
      { health := some 1, score := some 50, isAlive := some false } stSolo).1,
   c10_payload_cannot_set_combat_state.2 7 "A" { position := some ⟨1, 2, 3⟩, health := some 1 }
      stSolo (mkPlayer "A" ⟨0, 0, 0⟩ ⟨0, 0, 0⟩ 100) (by decide!)⟩

/-- C9: when the player's box overlaps a building and the bottom is inside
the landing band of the building's top with horizontal overlap on both
axes, the landing branch snaps the vertical position to exactly
`buildingTop + 1.5` (the player half height), zeroes the vertical velocity
when it was negative (leaving ascending velocity alone), and multiplies the
horizontal velocity components by the 0.95 friction factor instead of
running the bounce response. -/
theorem c9_landing_on_building :
    ∀ (pr : MathPrims) (box b : Client.BoxCollider) (ps : Client.PlayerStats),
      Client.boxCollision box b → Client.landingCond box b →
      Client.buildingLoop pr box [b] ps false =
        { position := ⟨ps.position.x, b.position.y + b.size.y / 2 + 1.5, ps.position.z⟩,
          velocity := ⟨ps.velocity.x * 0.95,
                       if ps.velocity.y < 0 then 0 else ps.velocity.y,
                       ps.velocity.z * 0.95⟩ } := by
  intro pr box b ps hbox hland
  have hdy := abs_lt.mp hbox.2.1
  have hskip : ¬ (box.position.y - box.size.y / 2 > b.position.y + b.size.y / 2 + 1) := by
    push_neg
    linarith [hdy.2]
  show Client.buildingLoop pr box (b :: []) ps false = _
  rw [Client.buildingLoop]
  rw [if_neg hskip, if_pos hbox, if_pos hland]
  rfl

/-- Witness fixtures for C9: a car-sized box descending onto the roof of a
40×100×40 building whose top is at height 100. -/
def cBoxW : Client.BoxCollider := { position := ⟨0, 100.5, 0⟩, size := ⟨8, 3, 16⟩ }

def cBldW : Client.BoxCollider := { position := ⟨0, 50, 0⟩, size := ⟨40, 100, 40⟩ }

def cPsW : Client.PlayerStats := { position := ⟨0, 100.5, 0⟩, velocity := ⟨10, -5, 2⟩ }

theorem c9_landing_on_building_witness :
    Client.buildingLoop ratPrims cBoxW [cBldW] cPsW false =
      { position := ⟨0, 101.5, 0⟩, velocity := ⟨9.5, 0, 1.9⟩ } :=
  (c9_landing_on_building ratPrims cBoxW cBldW cPsW (by decide!) (by decide!)).trans (by decide!)

theorem lookup_modify_other {s : GameState} {q pid : String} {f : Player → Player}
    (hid : ∀ p, (f p).id = p.id) (hne : pid ≠ q) :
    lookupPlayer (modifyPlayer s q f) pid = lookupPlayer s pid := by
  rw [lookupPlayer_modifyPlayer s q pid f hid]
  cases hl : lookupPlayer s pid with
  | none => rfl
  | some p =>
    have := (lookupPlayer_mem hl).2
    simp [this, hne]

theorem lookup_health_modify {s : GameState} {q pid : String} {f : Player → Player}
    (hid : ∀ p, (f p).id = p.id) (hh : ∀ p, (f p).health = p.health) :
    (lookupPlayer (modifyPlayer s q f) pid).map Player.health
      = (lookupPlayer s pid).map Player.health := by
  rw [lookupPlayer_modifyPlayer s q pid f hid]
  cases hl : lookupPlayer s pid with
  | none => rfl
  | some p =>
    by_cases h : p.id = q <;> simp [h, hh]

theorem playerHit_health_other {now : ℤ} {q : String} {d : ℚ} {src : String}
    {s : GameState} {pid : String} (hne : pid ≠ q) :
    (lookupPlayer (playerHit now q d src s).2 pid).map Player.health
      = (lookupPlayer s pid).map Player.health := by
  unfold playerHit
  cases hl : lookupPlayer s q with
  | none => rfl
  | some player =>
    dsimp only
    split_ifs with h1 h2 h3
    all_goals
      cases hp : lookupPlayer s pid with
      | none => simp [lookupPlayer_modifyPlayer, hp]
      | some pp =>
        have hppid := (lookupPlayer_mem hp).2
        by_cases hsrc : pp.id = src <;>
          simp [lookupPlayer_modifyPlayer, hp, hppid, hne, hsrc] <;>
          split_ifs <;> rfl

theorem laserHitLoop_owner_health (now : ℤ) (laser : Laser) (s : GameState)
    (rem : List String) :
    (lookupPlayer (laserHitLoop now laser s rem).1 laser.playerId).map Player.health
      = (lookupPlayer s laser.playerId).map Player.health := by
  unfold laserHitLoop
  refine foldl_preserves (P := fun acc : GameState × List String =>
    (lookupPlayer acc.1 laser.playerId).map Player.health
      = (lookupPlayer s laser.playerId).map Player.health) ?_ _ (s, rem) rfl
  intro acc pid hP
  unfold laserPlayerStep
  cases hl : lookupPlayer acc.1 pid with
  | none => exact hP
  | some player =>
    dsimp only
    split_ifs with h1 h2
    · exact hP
    · push_neg at h1
      exact (playerHit_health_other h1.1).trans hP
    · exact hP

/-- C5 (amended): a server-generated projectile never reduces its owner's
health — the `updateLasers` hit loop always skips the owner — but the
`laser:hit` handler applies `LASER_DAMAGE` to whatever `targetId` the
client reports, including the shooter's own id. -/
theorem c5_owner_immunity_amended :
    (∀ (now : ℤ) (laser : Laser) (s : GameState) (rem : List String),
      (lookupPlayer (laserHitLoop now laser s rem).1 laser.playerId).map Player.health
        = (lookupPlayer s laser.playerId).map Player.health) ∧
    (∀ (now : ℤ) (pid : String) (pos : Vec3) (s : GameState) (p : Player),
      lookupPlayer s pid = some p → p.isAlive = true →
      (lookupPlayer (laserHitHandler now pid ⟨pid, pos⟩ s).2 pid).map Player.health
        = some (if p.health - LASER_DAMAGE ≤ 0 then 0 else p.health - LASER_DAMAGE)) := by
  constructor
  · exact laserHitLoop_owner_health
  · intro now pid pos s p hl halive
    have hpid := (lookupPlayer_mem hl).2
    unfold laserHitHandler playerHit
    rw [hl]
    dsimp only
    by_cases hk : p.health - LASER_DAMAGE ≤ 0 <;>
      split_ifs <;>
      simp_all [lookupPlayer_modifyPlayer, hl, hpid] <;>
      split_ifs <;>
      simp_all [lookupPlayer_modifyPlayer, hl, hpid]

theorem c5_owner_immunity_amended_witness :
    (lookupPlayer (laserHitHandler 0 "A" ⟨"A", ⟨0, 0, 0⟩⟩ stSolo).2 "A").map Player.health
      = some (if (100 : ℚ) - LASER_DAMAGE ≤ 0 then 0 else 100 - LASER_DAMAGE) :=
  c5_owner_immunity_amended.2 0 "A" ⟨0, 0, 0⟩ stSolo
    (mkPlayer "A" ⟨0, 0, 0⟩ ⟨0, 0, 0⟩ 100) (by decide!) rfl

/-- C5 counterexample: a `laser:hit` report whose `targetId` equals the
reporting shooter's own id drops the shooter's health from 100 to 90 — the
handler applies damage attributed to a shooter to that same shooter. -/
theorem c5_self_report_damages_shooter :
    (lookupPlayer (laserHitHandler 0 "A" ⟨"A", ⟨0, 0, 0⟩⟩ stSolo).2 "A").map Player.health
      = some 90 ∧ (90 : ℚ) ≠ 100 := by decide!

/-- C1 (code-bug evidence): one kill reported through the `laser:hit`
handler gives the killer two score points — `playerHit` awards one and the
handler adds another — while the same kill applied through `playerHit`
alone (the server-side laser path) awards exactly one. -/
theorem c1_laser_hit_kill_double_score :
    ((laserHitHandler 1000 "A" ⟨"B", ⟨0, 0, 0⟩⟩ stShooterVictim).2.players.map
      (fun p => (p.id, p.score, p.isAlive))) = [("A", 2, true), ("B", 0, false)] ∧
    ((playerHit 1000 "B" LASER_DAMAGE "A" stShooterVictim).2.players.map
      (fun p => (p.id, p.score))) = [("A", 1), ("B", 0)] := by decide!

theorem clampAxis_mem (pos vel lo hi : ℚ) (h : lo ≤ hi) :
    lo ≤ (clampAxis pos vel lo hi).1 ∧ (clampAxis pos vel lo hi).1 ≤ hi := by
  unfold clampAxis
  split_ifs with h1 h2
  · exact ⟨le_refl lo, h⟩
  · exact ⟨h, le_refl hi⟩
  · push_neg at h1 h2
    exact ⟨h1, h2⟩

/-- C3 (amended): immediately after `updatePlayerPhysics` (whose last step
is the world-bounds clamp) the player's position lies inside `CITY_BOUNDS`
on all three axes; the collision-response pushes that run afterwards can
move it back out, so the claimed end-of-tick invariant fails. -/
theorem c3_clamp_inside_bounds :
    ∀ (pr : MathPrims) (dt : ℚ) (p : Player),
      CITY_BOUNDS.minX ≤ (updatePlayerPhysics pr dt p).position.x ∧
      (updatePlayerPhysics pr dt p).position.x ≤ CITY_BOUNDS.maxX ∧
      CITY_BOUNDS.minY ≤ (updatePlayerPhysics pr dt p).position.y ∧
      (updatePlayerPhysics pr dt p).position.y ≤ CITY_BOUNDS.maxY ∧
      CITY_BOUNDS.minZ ≤ (updatePlayerPhysics pr dt p).position.z ∧
      (updatePlayerPhysics pr dt p).position.z ≤ CITY_BOUNDS.maxZ := by
  intro pr dt p
  refine ⟨(clampAxis_mem _ _ _ _ (by norm_num [CITY_BOUNDS])).1,
          (clampAxis_mem _ _ _ _ (by norm_num [CITY_BOUNDS])).2,
          (clampAxis_mem _ _ _ _ (by norm_num [CITY_BOUNDS])).1,
          (clampAxis_mem _ _ _ _ (by norm_num [CITY_BOUNDS])).2,
          (clampAxis_mem _ _ _ _ (by norm_num [CITY_BOUNDS])).1,
          (clampAxis_mem _ _ _ _ (by norm_num [CITY_BOUNDS])).2⟩

/-- C3 counterexample: in `stTwoAtBound`, player A sits exactly on the
`maxX = 1000` boundary; during the tick the player-collision response
pushes A half a unit further out, so after `update` finishes A's x
coordinate is 1000.5, outside `CITY_BOUNDS`. -/
theorem c3_push_escapes_bounds :
    (lookupPlayer (update ratPrims (fun _ => 0) (1/60) 1000 stTwoAtBound) "A").map
      (fun p => p.position.x) = some (2001/2) ∧
    ¬ ((2001 : ℚ)/2 ≤ CITY_BOUNDS.maxX) := by decide!

theorem modifyPlayer_lasers (s : GameState) (pid : String) (f : Player → Player) :
    (modifyPlayer s pid f).lasers = s.lasers := rfl

theorem playerHit_lasers (now : ℤ) (pid : String) (d : ℚ) (src : String) (s : GameState) :
    (playerHit now pid d src s).2.lasers = s.lasers := by
  unfold playerHit
  cases lookupPlayer s pid with
  | none => rfl
  | some player =>
    dsimp only
    split_ifs <;> rfl

theorem respawnPlayer_lasers (i : Fin 5) (pid : String) (s : GameState) :
    (respawnPlayer i pid s).lasers = s.lasers := by
  unfold respawnPlayer
  cases lookupPlayer s pid <;> rfl

theorem cityCollisionStep_lasers (pr : MathPrims) (now : ℤ) (pid : String)
    (s : GameState) (b : Building) :
    (cityCollisionStep pr now pid s b).lasers = s.lasers := by
  unfold cityCollisionStep
  cases lookupPlayer s pid with
  | none => rfl
  | some player =>
    dsimp only
    split_ifs <;>
      simp [modifyPlayer_lasers, playerHit_lasers]

theorem pvpCollisionStep_lasers (pr : MathPrims) (now : ℤ) (pid otherId : String)
    (s : GameState) :
    (pvpCollisionStep pr now pid s otherId).lasers = s.lasers := by
  unfold pvpCollisionStep
  cases lookupPlayer s pid with
  | none => rfl
  | some player =>
    cases lookupPlayer s otherId with
    | none => rfl
    | some otherPlayer =>
      dsimp only
      split_ifs <;>
        simp [modifyPlayer_lasers, playerHit_lasers]

theorem playerTickStep_lasers (pr : MathPrims) (sc : String → Fin 5) (dt : ℚ)
    (now : ℤ) (s : GameState) (pid : String) :
    (playerTickStep pr sc dt now s pid).lasers = s.lasers := by
  unfold playerTickStep
  cases lookupPlayer s pid with
  | none => rfl
  | some player =>
    dsimp only
    set s1 := if ¬ player.isAlive = true ∧ player.respawnTime ≤ now then
        respawnPlayer (sc pid) pid s else s with hs1def
    have h1 : s1.lasers = s.lasers := by
      rw [hs1def]; split_ifs
      · exact respawnPlayer_lasers _ _ _
      · rfl
    cases lookupPlayer s1 pid with
    | none => exact h1
    | some player1 =>
      dsimp only
      split_ifs
      · unfold checkPlayerCollisions checkPlayerCityCollisions
        rw [foldl_preserves (P := fun s' : GameState =>
            s'.lasers = s.lasers) (fun s' a h => by dsimp only; rw [pvpCollisionStep_lasers]; exact h) _ _ ?_]
        exact foldl_preserves (P := fun s' : GameState => s'.lasers = s.lasers)
          (fun s' a h => by dsimp only; rw [cityCollisionStep_lasers]; exact h) _ _
          ((modifyPlayer_lasers _ _ _).trans h1)
      · exact h1

theorem laserPlayerStep_toRemove_mono {now : ℤ} {laser : Laser} {x : String}
    {acc : GameState × List String} {pid : String} (hx : x ∈ acc.2) :
    x ∈ (laserPlayerStep now laser acc pid).2 := by
  unfold laserPlayerStep
  cases lookupPlayer acc.1 pid with
  | none => exact hx
  | some player =>
    dsimp only
    split_ifs
    · exact hx
    · exact List.mem_append.mpr (Or.inl hx)
    · exact hx

theorem laserHitLoop_toRemove_mono {now : ℤ} {laser : Laser} {s : GameState}
    {rem : List String} {x : String} (hx : x ∈ rem) :
    x ∈ (laserHitLoop now laser s rem).2 := by
  unfold laserHitLoop
  exact foldl_preserves (P := fun acc : GameState × List String => x ∈ acc.2)
    (fun acc pid h => laserPlayerStep_toRemove_mono h) _ (s, rem) hx

theorem laserStep_toRemove_mono {dt : ℚ} {now : ℤ} {acc : LaserPass} {l : Laser}
    {x : String} (hx : x ∈ acc.toRemove) : x ∈ (laserStep dt now acc l).toRemove := by
  unfold laserStep
  split_ifs with h1
  · exact List.mem_append.mpr (Or.inl hx)
  · dsimp only
    split_ifs
    · exact List.mem_append.mpr (Or.inl (laserHitLoop_toRemove_mono hx))
    · exact laserHitLoop_toRemove_mono hx

theorem expired_in_toRemove (dt : ℚ) (now : ℤ) {laser : Laser}
    (hexp : now - laser.createdAt > laser.timeToLive) :
    ∀ (ls : List Laser) (acc : LaserPass), laser ∈ ls →
      laser.id ∈ (ls.foldl (laserStep dt now) acc).toRemove := by
  intro ls
  induction ls with
  | nil => intro acc h; cases h
  | cons l t ih =>
    intro acc hmem
    rcases List.mem_cons.mp hmem with h | h
    · subst h
      have : laser.id ∈ (laserStep dt now acc laser).toRemove := by
        unfold laserStep
        rw [if_pos hexp]
        exact List.mem_append.mpr (Or.inr (List.mem_singleton.mpr rfl))
      exact foldl_preserves (P := fun a : LaserPass => laser.id ∈ a.toRemove)
        (fun a l' h => laserStep_toRemove_mono h) t _ this
    · exact ih _ h

theorem updateLasers_removes_expired {dt : ℚ} {now : ℤ} {s : GameState} {laser : Laser}
    (hmem : laser ∈ s.lasers) (hexp : now - laser.createdAt > laser.timeToLive) :
    laser ∉ (updateLasers dt now s).lasers := by
  intro hin
  unfold updateLasers at hin
  dsimp only at hin
  have h1 := List.of_mem_filter hin
  have h2 := expired_in_toRemove dt now hexp s.lasers ⟨s, [], []⟩ hmem
  rw [decide_eq_true_eq, List.contains_eq_any_beq] at h1
  exact h1 (by simp only [List.any_eq_true]; exact ⟨laser.id, h2, by simp⟩)

/-- C8: a laser whose TTL has expired at the time of an `update` is removed
by that update — the expiry branch runs before any movement or damage and
only marks the laser for removal, and the end-of-pass filter then drops it
from the laser list. -/
theorem c8_expired_laser_removed :
    (∀ (dt : ℚ) (now : ℤ) (acc : LaserPass) (laser : Laser),
      now - laser.createdAt > laser.timeToLive →
      (laserStep dt now acc laser).state = acc.state ∧
      laser.id ∈ (laserStep dt now acc laser).toRemove) ∧
    (∀ (pr : MathPrims) (sc : String → Fin 5) (dt : ℚ) (now : ℤ)
        (s : GameState) (laser : Laser),
      laser ∈ s.lasers → now - laser.createdAt > laser.timeToLive →
      laser ∉ (update pr sc dt now s).lasers) := by
  constructor
  · intro dt now acc laser hexp
    constructor
    · unfold laserStep; rw [if_pos hexp]
    · unfold laserStep; rw [if_pos hexp]
      exact List.mem_append.mpr (Or.inr (List.mem_singleton.mpr rfl))
  · intro pr sc dt now s laser hmem hexp
    unfold update
    dsimp only
    have hls : ((s.players.map (fun p => p.id)).foldl
        (playerTickStep pr sc dt now) s).lasers = s.lasers :=
      foldl_preserves (P := fun s' : GameState => s'.lasers = s.lasers)
        (fun s' a h => by dsimp only; rw [playerTickStep_lasers]; exact h) _ s rfl
    exact updateLasers_removes_expired (by rw [hls]; exact hmem) hexp

theorem c8_expired_laser_removed_witness :
    (laserStep (1/60) 2001 ⟨stStaleLaser, [], []⟩ laserStale).state = stStaleLaser ∧
    laserStale.id ∈ (laserStep (1/60) 2001 ⟨stStaleLaser, [], []⟩ laserStale).toRemove ∧
    laserStale ∉ (update ratPrims (fun _ => 0) (1/60) 2001 stStaleLaser).lasers :=
  ⟨(c8_expired_laser_removed.1 (1/60) 2001 ⟨stStaleLaser, [], []⟩ laserStale (by decide!)).1,
   (c8_expired_laser_removed.1 (1/60) 2001 ⟨stStaleLaser, [], []⟩ laserStale (by decide!)).2,
   c8_expired_laser_removed.2 ratPrims (fun _ => 0) (1/60) 2001 stStaleLaser laserStale
     (by decide!) (by decide!)⟩

/-- C7 (amended): a player that is dead when inspected is skipped
everywhere damage or interaction could originate — `playerHit` fails and
changes nothing, `firePlayerLaser` returns `null` and changes nothing, the
tick body skips a dead (not-yet-respawning) player entirely, the
player-vs-player pass skips a pair as soon as either side is dead, and the
laser hit loop skips dead targets.  (The building-collision pass, however,
does not re-check `isAlive`, so a player killed mid-pass can still receive
further collision responses — see the counterexample.) -/
theorem c7_dead_player_amended :
    (∀ (now : ℤ) (pid : String) (d : ℚ) (src : String) (s : GameState) (p : Player),
      lookupPlayer s pid = some p → p.isAlive = false →
      playerHit now pid d src s = (hitFail, s)) ∧
    (∀ (pr : MathPrims) (now : ℤ) (pid : String) (ld : LaserInit) (s : GameState) (p : Player),
      lookupPlayer s pid = some p → p.isAlive = false →
      firePlayerLaser pr now pid ld s = (none, s)) ∧
    (∀ (pr : MathPrims) (sc : String → Fin 5) (dt : ℚ) (now : ℤ)
        (s : GameState) (pid : String) (p : Player),
      lookupPlayer s pid = some p → p.isAlive = false → now < p.respawnTime →
      playerTickStep pr sc dt now s pid = s) ∧
    (∀ (pr : MathPrims) (now : ℤ) (pid otherId : String) (s : GameState) (po : Player),
      lookupPlayer s otherId = some po → po.isAlive = false →
      pvpCollisionStep pr now pid s otherId = s) ∧
    (∀ (pr : MathPrims) (now : ℤ) (pid otherId : String) (s : GameState) (p : Player),
      lookupPlayer s pid = some p → p.isAlive = false →
      pvpCollisionStep pr now pid s otherId = s) ∧
    (∀ (now : ℤ) (laser : Laser) (acc : GameState × List String) (pid : String) (p : Player),
      lookupPlayer acc.1 pid = some p → p.isAlive = false →
      laserPlayerStep now laser acc pid = acc) := by
  refine ⟨?_, ?_, ?_, ?_, ?_, ?_⟩
  · intro now pid d src s p hl hdead
    unfold playerHit
    rw [hl]
    simp [hdead]
  · intro pr now pid ld s p hl hdead
    unfold firePlayerLaser
    rw [hl]
    simp [hdead]
  · intro pr sc dt now s pid p hl hdead hresp
    unfold playerTickStep
    rw [hl]
    dsimp only
    have hcond : ¬ (¬ p.isAlive = true ∧ p.respawnTime ≤ now) := by
      intro h
      omega
    rw [if_neg hcond, hl]
    simp [hdead]
  · intro pr now pid otherId s po hlo hdead
    unfold pvpCollisionStep
    cases hl : lookupPlayer s pid with
    | none => rfl
    | some player =>
      rw [hlo]
      simp [hdead]
  · intro pr now pid otherId s p hl hdead
    unfold pvpCollisionStep
    rw [hl]
    cases hlo : lookupPlayer s otherId with
    | none => rfl
    | some po =>
      simp [hdead]
  · intro now laser acc pid p hl hdead
    unfold laserPlayerStep
    rw [hl]
    simp [hdead]

theorem c7_dead_player_amended_witness :
    playerHit 999 "D" 5 "X" stKilled = (hitFail, stKilled) ∧
    firePlayerLaser ratPrims 999 "D" {} stKilled = (none, stKilled) ∧
    playerTickStep ratPrims (fun _ => 0) (1/60) 999 stKilled "D" = stKilled ∧
    pvpCollisionStep ratPrims 999 "X" stKilled "D" = stKilled ∧
    pvpCollisionStep ratPrims 999 "D" stKilled "X" = stKilled ∧
    laserPlayerStep 999 laserStale (stKilled, []) "D" = (stKilled, []) :=
  ⟨c7_dead_player_amended.1 999 "D" 5 "X" stKilled pDKilled (by decide!) rfl,
   c7_dead_player_amended.2.1 ratPrims 999 "D" {} stKilled pDKilled (by decide!) rfl,
   c7_dead_player_amended.2.2.1 ratPrims (fun _ => 0) (1/60) 999 stKilled "D" pDKilled
     (by decide!) rfl (by decide!),
   c7_dead_player_amended.2.2.2.1 ratPrims 999 "X" "D" stKilled pDKilled (by decide!) rfl,
   c7_dead_player_amended.2.2.2.2.1 ratPrims 999 "D" "X" stKilled pDKilled (by decide!) rfl,
   c7_dead_player_amended.2.2.2.2.2 999 laserStale (stKilled, []) "D" pDKilled
     (by decide!) rfl⟩

/-- C7 counterexample: in `stCityPass` the first building's collision kills
player K (damage 6 against 6 health), yet the city-collision pass — which
never re-checks `isAlive` — goes on to apply the second building's bounce
response to the now-dead player, changing K's velocity again.  So a dead
player does participate in a collision. -/
theorem c7_city_pass_hits_dead_player :
    ((lookupPlayer (cityCollisionStep ratPrims 0 "K" stCityPass bKill) "K").map
        (fun p => p.isAlive) = some false) ∧
    checkPlayerCityCollisions ratPrims 0 "K" stCityPass
      = cityCollisionStep ratPrims 0 "K"
          (cityCollisionStep ratPrims 0 "K" stCityPass bKill) bAfter ∧
    ((lookupPlayer (checkPlayerCityCollisions ratPrims 0 "K" stCityPass) "K").map
        (fun p => p.velocity)
      ≠ (lookupPlayer (cityCollisionStep ratPrims 0 "K" stCityPass bKill) "K").map
        (fun p => p.velocity)) := by decide!
